import Mathlib

/-!
Shallow embedding of `packages/aws-cdk/lib/api/deploy-stack.ts`.

The module under verification orchestrates CloudFormation deployments:
`deployStack` (skip-guard, failed-creation recovery, changeset creation /
stabilization / execution, progress monitor) and `destroyStack`, together
with the helpers `makeBodyParameter`, `getStackOutputs`,
`getDeployedTemplate`, `readCurrentTemplate` and `getStackId`.

Remote collaborators that live elsewhere in the repository
(`stackExists`, `stackFailedCreating`, `waitForStack`, `waitForChangeSet`,
`changeSetHasNoChanges`, `describeStack`, `prepareAssets`, `toYAML`,
`deserializeStructure`, `ToolkitInfo.uploadIfChanged`,
`StackActivityMonitor`) are modelled as an environment of oracles: each
remote call reads its outcome from a fixed `Env` field, and the embedding
records every call in a trace of `Event`s.  Computations are modelled in a
writer/except monad `DeployM`: a result (`Except ApiError`) paired with
the list of emitted events.
-/

/-- JavaScript-style JSON documents.  Object fields are an *ordered* list
of key/value pairs, mirroring JS objects, whose key insertion order is
observable (in particular by `JSON.stringify`). -/
inductive Json where
  | null : Json
  | bool (b : Bool) : Json
  | num (n : Int) : Json
  | str (s : String) : Json
  | arr (elems : List Json) : Json
  | obj (fields : List (String × Json)) : Json
deriving Repr

mutual

/-- `JSON.stringify`: serializes a document with object fields in their
stored (insertion) order. -/
def jsonStringify : Json → String
  | Json.null => "null"
  | Json.bool true => "true"
  | Json.bool false => "false"
  | Json.num n => toString n
  | Json.str s => "\"" ++ s ++ "\""
  | Json.arr xs => "[" ++ jsonStringifyList xs ++ "]"
  | Json.obj fs => "\x7b" ++ jsonStringifyFields fs ++ "\x7d"

def jsonStringifyList : List Json → String
  | [] => ""
  | [x] => jsonStringify x
  | x :: y :: rest => jsonStringify x ++ "," ++ jsonStringifyList (y :: rest)

def jsonStringifyFields : List (String × Json) → String
  | [] => ""
  | [(k, v)] => "\"" ++ k ++ "\":" ++ jsonStringify v
  | (k, v) :: f :: rest =>
      "\"" ++ k ++ "\":" ++ jsonStringify v ++ "," ++ jsonStringifyFields (f :: rest)

end

/-- `JSON.parse`d JS values that are falsy (`null`, `false`, `0`, `""`). -/
def jsFalsy : Json → Bool
  | Json.null => true
  | Json.bool false => true
  | Json.num 0 => true
  | Json.str "" => true
  | _ => false

/-- `pat.isPrefixOf l || ...` scan: substring test on character lists,
mirroring JavaScript `String.prototype.includes`. -/
def containsSub (pat : List Char) : List Char → Bool
  | [] => pat.isPrefixOf ([] : List Char)
  | c :: rest => pat.isPrefixOf (c :: rest) || containsSub pat rest

/-- JavaScript `s.includes(pat)`. -/
def strIncludes (s pat : String) : Bool :=
  containsSub pat.toList s.toList

/-- An error thrown by the AWS SDK or by the code itself: an optional
`code` (AWS errors carry one, locally-built `Error`s do not) and a
`message`. -/
structure ApiError where
  code : Option String
  message : String
deriving DecidableEq, Repr

/-- The slice of a CloudFormation stack description that the module
reads: `StackId`, `StackStatus` and the `Outputs` list
(`OutputKey`/`OutputValue` pairs). -/
structure StackDescription where
  StackId : String
  StackStatus : String
  Outputs : Option (List (String × String))
deriving DecidableEq, Repr

/-- Response of `cfn.describeStacks`: the optional `Stacks` array. -/
structure DescribeStacksResponse where
  Stacks : Option (List StackDescription)
deriving DecidableEq, Repr

/-- Response of `cfn.createChangeSet`: the fields the module uses
(`Id` for logging, `StackId` for results). -/
structure ChangeSetCreateResponse where
  Id : String
  StackId : String
deriving DecidableEq, Repr

/-- Modelled from the spec: the changeset description returned by
`waitForChangeSet` (repository code under `./util/cloudformation`, not
under `src/`).  Per the spec the list of proposed changes is "used only
for a count", so it is modelled by its optional length. -/
structure ChangeSetDescription where
  Changes : Option Nat
deriving DecidableEq, Repr

/-- Modelled from the spec: `changeSetHasNoChanges` (repository code
under `./util/cloudformation`, not under `src/`) reports whether the
stabilized changeset has zero effective changes. -/
def changeSetHasNoChanges (d : ChangeSetDescription) : Bool :=
  d.Changes.getD 0 = 0

/-- The slice of `ToolkitInfo` the module uses: the bucket URL (the
upload itself is an oracle of the environment). -/
structure ToolkitInfo where
  bucketUrl : String
deriving DecidableEq, Repr

/-- Remote calls and monitor transitions performed by the module, in
order.  Reads and mutations are distinguished by `Event.isMutating`. -/
inductive Event where
  | describeStacks
  | getTemplate
  | describeStack
  | prepareAssets
  | upload
  | stackFailedCreatingCheck
  | deleteStack
  | waitForStack
  | stackExistsCheck
  | createChangeSet
  | waitForChangeSet
  | deleteChangeSet
  | executeChangeSet
  | monitorStart
  | monitorStop
deriving DecidableEq, Repr

/-- Events that mutate remote state (or publish artifacts). -/
def Event.isMutating : Event → Bool
  | Event.prepareAssets => true
  | Event.upload => true
  | Event.deleteStack => true
  | Event.createChangeSet => true
  | Event.deleteChangeSet => true
  | Event.executeChangeSet => true
  | _ => false

/-- The read-only events the skip guard (`getDeployedTemplate` plus
`getStackOutputs`) can emit. -/
def Event.isGuardRead : Event → Bool
  | Event.describeStacks => true
  | Event.getTemplate => true
  | Event.describeStack => true
  | _ => false

/-- Environment of oracles: the outcome of each remote call /
external collaborator during one invocation.  Collaborators whose source
is elsewhere in the repository (spec sections 4 and 6) are modelled from
the spec as these oracle fields. -/
structure Env where
  /-- Outcome of `cfn.describeStacks` (inside `getStackId`). -/
  describeStacksResult : Except ApiError DescribeStacksResponse
  /-- Outcome of `cfn.getTemplate` (inside `readCurrentTemplate`): the
  optional `TemplateBody` text. -/
  getTemplateResult : Except ApiError (Option String)
  /-- Modelled from the spec: `deserializeStructure` (serialization
  collaborator, not under `src/`) parses stored template text. -/
  deserialize : String → Json
  /-- Modelled from the spec: `describeStack` (not under `src/`) returns
  the current stack description, or nothing. -/
  describeStackResult : Option StackDescription
  /-- Modelled from the spec: `toYAML` (serialization collaborator, not
  under `src/`) renders a template to its on-wire text. -/
  toYAML : Json → String
  /-- Modelled from the spec: the key returned by
  `toolkitInfo.uploadIfChanged` (not under `src/`). -/
  uploadKey : String
  /-- Modelled from the spec: parameters produced by `prepareAssets`
  (not under `src/`). -/
  assetParams : List (String × String)
  /-- Modelled from the spec: verdict of `stackFailedCreating` (not
  under `src/`). -/
  stackFailedCreating : Bool
  /-- Outcome of `waitForStack cfn deployName false` after the
  failed-creation delete. -/
  waitAfterDelete : Except ApiError (Option StackDescription)
  /-- Modelled from the spec: verdict of `stackExists` (not under
  `src/`). -/
  stackExists : Bool
  /-- Response of `cfn.createChangeSet`. -/
  createChangeSetResult : ChangeSetCreateResponse
  /-- Outcome of `waitForChangeSet` (stabilization). -/
  waitForChangeSetResult : Except ApiError ChangeSetDescription
  /-- Outcome of `waitForStack cfn deployName` after executing the
  changeset. -/
  waitAfterExecute : Except ApiError (Option StackDescription)
  /-- Outcome of `waitForStack cfn deployName false` inside
  `destroyStack`. -/
  destroyWaitResult : Except ApiError (Option StackDescription)

/-- Writer/except monad for one invocation: an `Except ApiError` result
together with the trace of emitted `Event`s.  A thrown error keeps the
events emitted so far (JS exceptions do not undo completed calls). -/
structure DeployM (α : Type) where
  res : Except ApiError α
  trace : List Event
deriving Repr

namespace DeployM

def pure' (a : α) : DeployM α := ⟨Except.ok a, []⟩

def bind' (x : DeployM α) (f : α → DeployM β) : DeployM β :=
  match x.res with
  | Except.ok a => ⟨(f a).res, x.trace ++ (f a).trace⟩
  | Except.error e => ⟨Except.error e, x.trace⟩

instance : Monad DeployM where
  pure := pure'
  bind := bind'

theorem bind_def (x : DeployM α) (f : α → DeployM β) :
    x >>= f = bind' x f := rfl

theorem pure_def (a : α) : (pure a : DeployM α) = ⟨Except.ok a, []⟩ := rfl

theorem bind_ok {x : DeployM α} {f : α → DeployM β} {a : α}
    (h : x.res = Except.ok a) :
    x >>= f = ⟨(f a).res, x.trace ++ (f a).trace⟩ := by
  rw [bind_def, bind', h]

theorem bind_err {x : DeployM α} {f : α → DeployM β} {e : ApiError}
    (h : x.res = Except.error e) :
    x >>= f = ⟨Except.error e, x.trace⟩ := by
  rw [bind_def, bind', h]

theorem eta (x : DeployM α) : (⟨x.res, x.trace⟩ : DeployM α) = x := rfl

end DeployM

/-- Record one remote call / monitor transition. -/
def emit (e : Event) : DeployM Unit := ⟨Except.ok (), [e]⟩

/-- `throw new Error(...)` / rethrow of an SDK error. -/
def throwErr (e : ApiError) : DeployM α := ⟨Except.error e, []⟩

/-- Lift the recorded outcome of a fallible remote call. -/
def liftCall (x : Except ApiError α) : DeployM α := ⟨x, []⟩

theorem emit_res (e : Event) : (emit e).res = Except.ok () := rfl
theorem emit_trace (e : Event) : (emit e).trace = [e] := rfl
theorem liftCall_res (x : Except ApiError α) : (liftCall x).res = x := rfl
theorem liftCall_trace (x : Except ApiError α) : (liftCall x).trace = [] := rfl

/-- `options.deployName || options.stack.stackName` — JS `||` also falls
back on an empty string. -/
def deployNameFor (deployNameOpt : Option String) (stackName : String) : String :=
  match deployNameOpt with
  | some n => if n = "" then stackName else n
  | none => stackName

/-- Options of `deployStack` (the fields the module reads).  The stack
artifact is flattened into `template`, `stackName`, `displayName` and
`hasEnvironment` (whether `options.stack.environment` is set). -/
structure DeployStackOptions where
  template : Json
  stackName : String
  displayName : String
  hasEnvironment : Bool
  deployName : Option String
  quiet : Bool
  reuseAssets : List String
  tags : List (String × String)
  execute : Option Bool
  parameters : List (String × Option String)
  force : Bool
  toolkitInfo : Option ToolkitInfo

/-- Options of `destroyStack` (the fields the module reads). -/
structure DestroyStackOptions where
  stackName : String
  displayName : String
  hasEnvironment : Bool
  roleArn : Option String
  deployName : Option String
  quiet : Bool

/-- Result of `deployStack` (minus the echoed-back stack artifact). -/
structure DeployStackResult where
  noOp : Bool
  outputs : List (String × String)
  stackArn : String
deriving DecidableEq, Repr

/-- `JSON.stringify`-typed body parameter of `createChangeSet`: optional
inline `TemplateBody` and optional `TemplateURL`. -/
structure TemplateBodyParameter where
  TemplateBody : Option String
  TemplateURL : Option String
deriving DecidableEq, Repr

def LARGE_TEMPLATE_SIZE_KB : Nat := 50

/-- `getStackId`: describe the stack; a `does not exist` error is
normalized to `none`; a response with no `Stacks`, or whose list is not a
singleton, also yields `none`. -/
def getStackId (env : Env) (stackName : String) : DeployM (Option String) := do
  emit Event.describeStacks
  match env.describeStacksResult with
  | Except.error e =>
      if strIncludes e.message "does not exist" then pure none
      else throwErr e
  | Except.ok resp =>
      match resp.Stacks with
      | none => pure none
      | some l =>
          if l.length ≠ 1 then pure none
          else pure (l.head?.map StackDescription.StackId)

/-- The exact not-found message `readCurrentTemplate` matches on. -/
def notFoundMsg (stackName : String) : String :=
  "Stack with id " ++ stackName ++ " does not exist"

/-- `readCurrentTemplate`: fetch the deployed template body and
deserialize it; `undefined`/falsy bodies and the exact
`ValidationError`/not-found error normalize to the empty document. -/
def readCurrentTemplate (env : Env) (stackName : String) : DeployM Json := do
  emit Event.getTemplate
  match env.getTemplateResult with
  | Except.ok tb =>
      match tb with
      | none => pure (Json.obj [])
      | some body =>
          if body = "" then pure (Json.obj [])
          else
            let d := env.deserialize body
            pure (if jsFalsy d then Json.obj [] else d)
  | Except.error e =>
      if e.code = some "ValidationError" ∧ e.message = notFoundMsg stackName then
        pure (Json.obj [])
      else throwErr e

/-- The currently-deployed template together with the stack id. -/
structure DeployedTemplate where
  stackId : String
  template : Json
deriving Repr

/-- `getDeployedTemplate`: stack id first; only when one is found is the
current template read. -/
def getDeployedTemplate (env : Env) (stackName : String) :
    DeployM (Option DeployedTemplate) := do
  let stackId ← getStackId env stackName
  match stackId with
  | none => pure none
  | some sid => do
      let template ← readCurrentTemplate env stackName
      pure (some ⟨sid, template⟩)

/-- JS `result[k] = v` on an object rendered as an ordered association
list: update in place if the key exists, else append. -/
def setOutput : List (String × String) → String → String → List (String × String)
  | [], k, v => [(k, v)]
  | (k2, v2) :: rest, k, v =>
      if k2 = k then (k2, v) :: rest else (k2, v2) :: setOutput rest k v

/-- The outputs map built by `getStackOutputs` from an optional stack
description. -/
def stackOutputsOf : Option StackDescription → List (String × String)
  | none => []
  | some d =>
      match d.Outputs with
      | none => []
      | some outs => outs.foldl (fun m o => setOutput m o.1 o.2) []

/-- `getStackOutputs`: describe the stack and collect its outputs. -/
def getStackOutputs (env : Env) (stackName : String) :
    DeployM (List (String × String)) := do
  emit Event.describeStack
  pure (stackOutputsOf env.describeStackResult)

/-- The message of the too-large error thrown by `makeBodyParameter`. -/
def tooLargeMsg : String :=
  "Template too large to deploy (\"cdk bootstrap\" is required)"

/-- `makeBodyParameter`: with toolkit info, upload the serialized
template and return its URL; otherwise the inline body, unless it
exceeds `LARGE_TEMPLATE_SIZE_KB * 1024`, which is a fatal error. -/
def makeBodyParameter (env : Env) (template : Json)
    (toolkitInfo : Option ToolkitInfo) : DeployM TemplateBodyParameter :=
  let templateJson := env.toYAML template
  match toolkitInfo with
  | some info => do
      emit Event.upload
      let templateURL := info.bucketUrl ++ "/" ++ env.uploadKey
      pure { TemplateBody := none, TemplateURL := some templateURL }
  | none =>
      if templateJson.length > LARGE_TEMPLATE_SIZE_KB * 1024 then
        throwErr ⟨none, tooLargeMsg⟩
      else
        pure { TemplateBody := some templateJson, TemplateURL := none }

/-- The message of the failed-deletion error in the failed-creation
recovery path: reports the observed status verbatim. -/
def failedDeletingMsg (deployName status : String) : String :=
  "Failed deleting stack " ++ deployName ++
    " that had previously failed creation (current state: " ++ status ++ ")"

/-- Failed-creation recovery block of `deployStack`: when the stack
previously failed creation, delete it and wait (absence acceptable); a
post-delete status other than `DELETE_COMPLETE` is fatal. -/
def recoverFailedCreation (env : Env) (deployName : String) : DeployM Unit := do
  emit Event.stackFailedCreatingCheck
  if env.stackFailedCreating then do
    emit Event.deleteStack
    emit Event.waitForStack
    let deletedStack ← liftCall env.waitAfterDelete
    match deletedStack with
    | some ds =>
        if ds.StackStatus = "DELETE_COMPLETE" then pure ()
        else throwErr ⟨none, failedDeletingMsg deployName ds.StackStatus⟩
    | none => pure ()
  else
    pure ()

/-- The caller-supplied parameters that survive the `if (paramValue)`
filter, appended to the asset parameters. -/
def mergeParams (assetParams : List (String × String))
    (parameters : List (String × Option String)) : List (String × String) :=
  assetParams ++ parameters.filterMap fun p =>
    match p.2 with
    | some v => if v = "" then none else some (p.1, v)
    | none => none

/-- Changeset block of `deployStack` (source lines 120-162): determine
CREATE/UPDATE intent, create the changeset, wait for it to stabilize,
delete it and report no-op when it is empty, otherwise execute it (with
the activity monitor, unless quiet) or leave it in review
(`execute: false`). -/
def changeSetStage (env : Env) (options : DeployStackOptions)
    (deployName : String) : DeployM DeployStackResult := do
  emit Event.stackExistsCheck
  let _update := env.stackExists
  emit Event.createChangeSet
  let changeSet := env.createChangeSetResult
  emit Event.waitForChangeSet
  let changeSetDescription ← liftCall env.waitForChangeSetResult
  if changeSetHasNoChanges changeSetDescription then do
    emit Event.deleteChangeSet
    let outputs ← getStackOutputs env deployName
    pure { noOp := true, outputs := outputs, stackArn := changeSet.StackId }
  else do
    if options.execute.getD true then do
      emit Event.executeChangeSet
      if options.quiet = false then emit Event.monitorStart else pure ()
      emit Event.waitForStack
      let _ ← liftCall env.waitAfterExecute
      if options.quiet = false then emit Event.monitorStop else pure ()
    else
      pure ()
    let outputs ← getStackOutputs env deployName
    pure { noOp := false, outputs := outputs, stackArn := changeSet.StackId }

/-- Body of `deployStack` past the skip guard: prepare assets, resolve
the template body, recover a failed creation, then the changeset
block. -/
def deployStackInner (env : Env) (options : DeployStackOptions)
    (deployName : String) : DeployM DeployStackResult := do
  emit Event.prepareAssets
  let _params := mergeParams env.assetParams options.parameters
  let _bodyParameter ← makeBodyParameter env options.template options.toolkitInfo
  recoverFailedCreation env deployName
  changeSetStage env options deployName

/-- `deployStack`: environment check, then (unless `force`) the skip
guard comparing `JSON.stringify` of desired and deployed templates, then
the rest of the pipeline. -/
def deployStack (env : Env) (options : DeployStackOptions) :
    DeployM DeployStackResult :=
  if options.hasEnvironment = false then
    throwErr ⟨none, "The stack " ++ options.displayName ++ " does not have an environment"⟩
  else if options.force = false then do
    let deployed ← getDeployedTemplate env (deployNameFor options.deployName options.stackName)
    match deployed with
    | some d =>
        if jsonStringify options.template = jsonStringify d.template then do
          let outputs ← getStackOutputs env (deployNameFor options.deployName options.stackName)
          pure { noOp := true, outputs := outputs, stackArn := d.stackId }
        else
          deployStackInner env options (deployNameFor options.deployName options.stackName)
    | none => deployStackInner env options (deployNameFor options.deployName options.stackName)
  else
    deployStackInner env options (deployNameFor options.deployName options.stackName)

/-- Modelled from the spec: `StackStatus.fromStackDescription` (not under
`src/`) renders the stack's status for display; modelled as the raw
status name. -/
def statusDisplayOf (ds : StackDescription) : String := ds.StackStatus

/-- `destroyStack`: environment check; absent stack is an idempotent
no-op; otherwise start the monitor (unless quiet), delete, wait
(absence acceptable), stop the monitor, and fail on an anomalous
terminal status. -/
def destroyStack (env : Env) (options : DestroyStackOptions) : DeployM Unit :=
  if options.hasEnvironment = false then
    throwErr ⟨none, "The stack " ++ options.displayName ++ " does not have an environment"⟩
  else do
    emit Event.stackExistsCheck
    if env.stackExists = false then pure ()
    else do
      if options.quiet = false then emit Event.monitorStart else pure ()
      emit Event.deleteStack
      emit Event.waitForStack
      let destroyedStack ← liftCall env.destroyWaitResult
      if options.quiet = false then emit Event.monitorStop else pure ()
      match destroyedStack with
      | some ds =>
          if ds.StackStatus = "DELETE_COMPLETE" then pure ()
          else throwErr ⟨none,
            "Failed to destroy " ++ deployNameFor options.deployName options.stackName ++
              ": " ++ statusDisplayOf ds⟩
      | none => pure ()

/-! ## Infrastructure lemmas -/

theorem getStackId_trace (env : Env) (n : String) :
    (getStackId env n).trace = [Event.describeStacks] := by
  unfold getStackId
  rcases env.describeStacksResult with e | resp
  · simp only [DeployM.bind_def, DeployM.bind', emit, throwErr]
    split <;> rfl
  · simp only [DeployM.bind_def, DeployM.bind', emit, throwErr]
    rcases resp.Stacks with _ | l
    · rfl
    · dsimp only
      split <;> rfl

theorem readCurrentTemplate_trace (env : Env) (n : String) :
    (readCurrentTemplate env n).trace = [Event.getTemplate] := by
  unfold readCurrentTemplate
  rcases env.getTemplateResult with e | tb
  · simp only [DeployM.bind_def, DeployM.bind', emit, throwErr]
    split <;> rfl
  · simp only [DeployM.bind_def, DeployM.bind', emit, throwErr]
    rcases tb with _ | body
    · rfl
    · dsimp only
      split <;> rfl

theorem getStackOutputs_eq (env : Env) (n : String) :
    getStackOutputs env n =
      ⟨Except.ok (stackOutputsOf env.describeStackResult), [Event.describeStack]⟩ := rfl

theorem getDeployedTemplate_trace_guard (env : Env) (n : String) :
    ∀ e ∈ (getDeployedTemplate env n).trace, Event.isGuardRead e = true := by
  unfold getDeployedTemplate
  rcases h : (getStackId env n).res with e | sid
  · rw [DeployM.bind_err h]
    intro ev hev
    rw [getStackId_trace] at hev
    simp only [List.mem_singleton] at hev
    subst hev; rfl
  · rw [DeployM.bind_ok h]
    intro ev hev
    simp only [List.mem_append] at hev
    rcases hev with hev | hev
    · rw [getStackId_trace] at hev
      simp only [List.mem_singleton] at hev
      subst hev; rfl
    · rcases sid with _ | s
      · simp [DeployM.pure_def] at hev
      · dsimp only at hev
        rcases h2 : (readCurrentTemplate env n).res with e2 | t
        · rw [DeployM.bind_err h2] at hev
          rw [readCurrentTemplate_trace] at hev
          simp only [List.mem_singleton] at hev
          subst hev; rfl
        · rw [DeployM.bind_ok h2] at hev
          rw [readCurrentTemplate_trace] at hev
          simp only [DeployM.pure_def, List.append_nil, List.mem_singleton] at hev
          subst hev; rfl

theorem makeBodyParameter_trace (env : Env) (t : Json) (info : Option ToolkitInfo) :
    ∀ e ∈ (makeBodyParameter env t info).trace, e = Event.upload := by
  unfold makeBodyParameter
  rcases info with _ | i
  · dsimp only
    split <;> intro ev hev <;> simp [throwErr, DeployM.pure_def] at hev
  · intro ev hev
    simp only [DeployM.bind_def, DeployM.bind', emit, DeployM.pure_def] at hev
    simp at hev
    exact hev

/-- Case analysis on `deployStack`: either the skip guard handled the
whole invocation using only read calls, or the invocation is the inner
pipeline prefixed by the guard's read calls. -/
theorem deployStack_dispatch (env : Env) (opts : DeployStackOptions)
    (henv : opts.hasEnvironment = true) :
    (∀ e ∈ (deployStack env opts).trace, Event.isGuardRead e = true)
    ∨ ∃ pre, (∀ e ∈ pre, Event.isGuardRead e = true) ∧
        deployStack env opts =
          ⟨(deployStackInner env opts (deployNameFor opts.deployName opts.stackName)).res,
            pre ++ (deployStackInner env opts (deployNameFor opts.deployName opts.stackName)).trace⟩ := by
  unfold deployStack
  rw [henv]
  simp only [Bool.true_eq_false, if_false, ite_false]
  rcases hf : opts.force with _ | _
  · simp only [if_true, ite_true]
    rcases h : (getDeployedTemplate env (deployNameFor opts.deployName opts.stackName)).res
      with e | dep
    · rw [DeployM.bind_err h]
      left
      intro ev hev
      exact getDeployedTemplate_trace_guard env _ ev hev
    · rw [DeployM.bind_ok h]
      rcases dep with _ | d
      · right
        refine ⟨(getDeployedTemplate env (deployNameFor opts.deployName opts.stackName)).trace,
          getDeployedTemplate_trace_guard env _, ?_⟩
        rfl
      · dsimp only
        by_cases hsq : jsonStringify opts.template = jsonStringify d.template
        · rw [if_pos hsq]
          left
          intro ev hev
          simp only [DeployM.bind_def, DeployM.bind', getStackOutputs_eq,
            DeployM.pure_def, List.append_nil, List.mem_append, List.mem_singleton] at hev
          rcases hev with hev | hev
          · exact getDeployedTemplate_trace_guard env _ ev hev
          · subst hev; rfl
        · rw [if_neg hsq]
          right
          exact ⟨(getDeployedTemplate env (deployNameFor opts.deployName opts.stackName)).trace,
            getDeployedTemplate_trace_guard env _, rfl⟩
  · refine Or.inr ⟨[], by simp, ?_⟩
    rw [if_neg (by simp)]
    exact (DeployM.eta _).symm

/-- Events emitted only by the changeset block. -/
def Event.isChangeSetOp : Event → Bool
  | Event.createChangeSet => true
  | Event.deleteChangeSet => true
  | Event.executeChangeSet => true
  | Event.monitorStart => true
  | Event.monitorStop => true
  | _ => false

theorem recover_nofail (env : Env) (dn : String)
    (h : env.stackFailedCreating = false) :
    recoverFailedCreation env dn = ⟨Except.ok (), [Event.stackFailedCreatingCheck]⟩ := by
  unfold recoverFailedCreation
  rw [h]
  rfl

theorem recover_trace_fail (env : Env) (dn : String)
    (h : env.stackFailedCreating = true) :
    (recoverFailedCreation env dn).trace =
      [Event.stackFailedCreatingCheck, Event.deleteStack, Event.waitForStack] := by
  unfold recoverFailedCreation
  rw [h]
  rcases hw : env.waitAfterDelete with e | od
  · simp only [DeployM.bind_def, DeployM.bind', emit, throwErr, liftCall, DeployM.pure_def, hw]
    rfl
  · simp only [DeployM.bind_def, DeployM.bind', emit, throwErr, liftCall, DeployM.pure_def, hw]
    rcases od with _ | ds
    · rfl
    · by_cases hs : ds.StackStatus = "DELETE_COMPLETE"
      · simp [if_pos hs]
      · simp [if_neg hs]

theorem recover_res_fail_bad (env : Env) (dn : String) (ds : StackDescription)
    (h : env.stackFailedCreating = true)
    (hw : env.waitAfterDelete = Except.ok (some ds))
    (hbad : ¬ ds.StackStatus = "DELETE_COMPLETE") :
    (recoverFailedCreation env dn).res =
      Except.error ⟨none, failedDeletingMsg dn ds.StackStatus⟩ := by
  unfold recoverFailedCreation
  rw [h]
  simp only [DeployM.bind_def, DeployM.bind', emit, throwErr, liftCall, DeployM.pure_def, hw]
  simp [if_neg hbad]

theorem recover_trace_sub (env : Env) (dn : String) :
    ∀ e ∈ (recoverFailedCreation env dn).trace, Event.isChangeSetOp e = false := by
  intro ev hev
  rcases h : env.stackFailedCreating with _ | _
  · rw [recover_nofail env dn h] at hev
    simp only [List.mem_singleton] at hev
    subst hev; rfl
  · rw [recover_trace_fail env dn h] at hev
    simp only [List.mem_cons, List.not_mem_nil, or_false] at hev
    rcases hev with rfl | rfl | rfl <;> rfl

/-- Case analysis on `deployStackInner`: either it aborts before the
changeset block (no changeset-related event in its trace), or it is the
changeset block prefixed by asset/body/recovery events. -/
theorem deployStackInner_split (env : Env) (opts : DeployStackOptions) (dn : String) :
    ((∀ e ∈ (deployStackInner env opts dn).trace, Event.isChangeSetOp e = false) ∧
      ∃ er, (deployStackInner env opts dn).res = Except.error er)
    ∨ ∃ pre, (∀ e ∈ pre, Event.isChangeSetOp e = false) ∧
        deployStackInner env opts dn =
          ⟨(changeSetStage env opts dn).res, pre ++ (changeSetStage env opts dn).trace⟩ := by
  unfold deployStackInner
  rw [DeployM.bind_ok (emit_res Event.prepareAssets)]
  rcases hb : (makeBodyParameter env opts.template opts.toolkitInfo).res with e | bp
  · rw [DeployM.bind_err hb]
    left
    constructor
    · intro ev hev
      simp only [emit_trace, List.mem_append, List.mem_singleton] at hev
      rcases hev with rfl | hev
      · rfl
      · rw [makeBodyParameter_trace env opts.template opts.toolkitInfo ev hev]
        rfl
    · exact ⟨e, rfl⟩
  · rw [DeployM.bind_ok hb]
    rcases hr : (recoverFailedCreation env dn).res with er | u
    · rw [DeployM.bind_err hr]
      left
      constructor
      · intro ev hev
        simp only [emit_trace, List.mem_append, List.mem_singleton] at hev
        rcases hev with rfl | hev | hev
        · rfl
        · rw [makeBodyParameter_trace env opts.template opts.toolkitInfo ev hev]
          rfl
        · exact recover_trace_sub env dn ev hev
      · exact ⟨er, rfl⟩
    · rw [DeployM.bind_ok hr]
      right
      refine ⟨[Event.prepareAssets] ++ (makeBodyParameter env opts.template opts.toolkitInfo).trace
          ++ (recoverFailedCreation env dn).trace, ?_, ?_⟩
      · intro ev hev
        simp only [List.mem_append, List.mem_singleton] at hev
        rcases hev with (rfl | hev) | hev
        · rfl
        · rw [makeBodyParameter_trace env opts.template opts.toolkitInfo ev hev]
          rfl
        · exact recover_trace_sub env dn ev hev
      · simp [emit_trace, List.append_assoc]

/-- The empty-diff path of the changeset block: delete the changeset and
report a no-op with the current outputs; the changeset is not executed. -/
theorem changeSetStage_noChanges (env : Env) (opts : DeployStackOptions) (dn : String)
    (desc : ChangeSetDescription)
    (hw : env.waitForChangeSetResult = Except.ok desc)
    (hnc : changeSetHasNoChanges desc = true) :
    changeSetStage env opts dn =
      ⟨Except.ok ⟨true, stackOutputsOf env.describeStackResult, env.createChangeSetResult.StackId⟩,
        [Event.stackExistsCheck, Event.createChangeSet, Event.waitForChangeSet,
         Event.deleteChangeSet, Event.describeStack]⟩ := by
  unfold changeSetStage
  rw [hw]
  simp [DeployM.bind_def, DeployM.bind', emit, liftCall, DeployM.pure_def, hnc,
    getStackOutputs_eq, throwErr]

/-- The declined-execution path of the changeset block: the changeset is
neither executed nor deleted, and the result is a non-no-op with the
current outputs. -/
theorem changeSetStage_noExecute (env : Env) (opts : DeployStackOptions) (dn : String)
    (desc : ChangeSetDescription)
    (hw : env.waitForChangeSetResult = Except.ok desc)
    (hc : changeSetHasNoChanges desc = false)
    (hex : opts.execute = some false) :
    changeSetStage env opts dn =
      ⟨Except.ok ⟨false, stackOutputsOf env.describeStackResult, env.createChangeSetResult.StackId⟩,
        [Event.stackExistsCheck, Event.createChangeSet, Event.waitForChangeSet,
         Event.describeStack]⟩ := by
  unfold changeSetStage
  rw [hw]
  simp [DeployM.bind_def, DeployM.bind', emit, liftCall, DeployM.pure_def, hc, hex,
    getStackOutputs_eq]

theorem guardRead_not_mutating :
    ∀ e : Event, Event.isGuardRead e = true → Event.isMutating e = false := by
  intro e
  cases e <;> decide

/-! ## Claim theorems -/

/-- C1 (amended): with `force` unset and a stack deployed under the
deploy name, `deployStack` compares the desired template to the deployed
template by equality of their `JSON.stringify` serializations of the
deserialized documents (so differences that vanish under
deserialization, such as whitespace of the stored text, cannot trigger a
deployment, but key ordering of the documents is significant); when the
serializations are equal it returns a no-op result carrying the current
outputs and the deployed stack's id, performing zero mutating remote
calls. -/
theorem deployStack_skip_on_stringify_eq (env : Env) (opts : DeployStackOptions)
    (d : DeployedTemplate)
    (henv : opts.hasEnvironment = true)
    (hforce : opts.force = false)
    (hdep : (getDeployedTemplate env (deployNameFor opts.deployName opts.stackName)).res =
      Except.ok (some d))
    (heq : jsonStringify opts.template = jsonStringify d.template) :
    (deployStack env opts).res =
      Except.ok ⟨true, stackOutputsOf env.describeStackResult, d.stackId⟩ ∧
    ∀ e ∈ (deployStack env opts).trace, Event.isMutating e = false := by
  have hds : deployStack env opts =
      ⟨Except.ok ⟨true, stackOutputsOf env.describeStackResult, d.stackId⟩,
        (getDeployedTemplate env (deployNameFor opts.deployName opts.stackName)).trace
          ++ [Event.describeStack]⟩ := by
    unfold deployStack
    rw [henv, hforce]
    simp only [Bool.true_eq_false, if_false, ite_false, if_true, ite_true]
    rw [DeployM.bind_ok hdep]
    dsimp only
    rw [if_pos heq]
    simp [DeployM.bind_def, DeployM.bind', getStackOutputs_eq, DeployM.pure_def]
  rw [hds]
  refine ⟨rfl, ?_⟩
  intro ev hev
  simp only [List.mem_append, List.mem_singleton] at hev
  rcases hev with hev | rfl
  · exact guardRead_not_mutating ev (getDeployedTemplate_trace_guard env _ ev hev)
  · rfl

/-- A concrete stack description shared by the concrete environments
below. -/
def baseDesc : StackDescription :=
  ⟨"arn:stack1", "CREATE_COMPLETE", some [("Out", "V")]⟩

/-- A concrete environment for witnesses and counterexamples: one
deployed stack whose stored template deserializes to
`\x7b "a": 1 \x7d`. -/
def baseEnv : Env := {
  describeStacksResult := Except.ok ⟨some [baseDesc]⟩
  getTemplateResult := Except.ok (some "stored")
  deserialize := fun _ => Json.obj [("a", Json.num 1)]
  describeStackResult := some baseDesc
  toYAML := fun _ => "yaml"
  uploadKey := "key"
  assetParams := []
  stackFailedCreating := false
  waitAfterDelete := Except.ok none
  stackExists := true
  createChangeSetResult := ⟨"cs1", "arn:cs"⟩
  waitForChangeSetResult := Except.ok ⟨some 1⟩
  waitAfterExecute := Except.ok (some ⟨"arn:stack1", "UPDATE_COMPLETE", none⟩)
  destroyWaitResult := Except.ok none }

/-- Concrete deploy options matching `baseEnv`'s deployed template. -/
def baseOpts : DeployStackOptions := {
  template := Json.obj [("a", Json.num 1)]
  stackName := "stack1"
  displayName := "stack1"
  hasEnvironment := true
  deployName := none
  quiet := true
  reuseAssets := []
  tags := []
  execute := none
  parameters := []
  force := false
  toolkitInfo := some ⟨"https://bucket"⟩ }

/-- Witness for C1's amended theorem at a concrete input whose deployed
and desired templates serialize identically. -/
theorem deployStack_skip_on_stringify_eq_witness :
    (deployStack baseEnv baseOpts).res =
      Except.ok ⟨true, [("Out", "V")], "arn:stack1"⟩ ∧
    ∀ e ∈ (deployStack baseEnv baseOpts).trace, Event.isMutating e = false :=
  deployStack_skip_on_stringify_eq baseEnv baseOpts
    ⟨"arn:stack1", Json.obj [("a", Json.num 1)]⟩ rfl rfl rfl rfl

/-- The desired template's fields in C1's counterexample. -/
def cexDesiredFields : List (String × Json) := [("a", Json.num 1), ("b", Json.num 2)]

/-- The deployed template's fields in C1's counterexample: the same
key/value pairs in the opposite order. -/
def cexDeployedFields : List (String × Json) := [("b", Json.num 2), ("a", Json.num 1)]

/-- C1's counterexample environment: the stored template deserializes to
the key-reordered document. -/
def cexEnv : Env :=
  { baseEnv with deserialize := fun _ => Json.obj cexDeployedFields }

/-- C1's counterexample options: desired template with the same fields
in the other order, `force` unset. -/
def cexOpts : DeployStackOptions :=
  { baseOpts with template := Json.obj cexDesiredFields }

/-- C1 (counterexample): the deployed document holds exactly the desired
document's key/value pairs, only in a different key order — deep
structural equality would judge them equal — yet `deployStack` with
`force` unset does not return the no-op result: it proceeds to create
and execute a changeset (mutating remote calls) and reports
`noOp = false`. -/
theorem deployStack_keyOrder_counterexample :
    cexOpts.template = Json.obj cexDesiredFields ∧
    (getDeployedTemplate cexEnv "stack1").res =
      Except.ok (some ⟨"arn:stack1", Json.obj cexDeployedFields⟩) ∧
    cexDesiredFields.Perm cexDeployedFields ∧
    cexDesiredFields ≠ cexDeployedFields ∧
    cexOpts.force = false ∧
    (deployStack cexEnv cexOpts).res = Except.ok ⟨false, [("Out", "V")], "arn:cs"⟩ ∧
    Event.createChangeSet ∈ (deployStack cexEnv cexOpts).trace ∧
    Event.executeChangeSet ∈ (deployStack cexEnv cexOpts).trace := by
  refine ⟨rfl, rfl, ?_, ?_, rfl, rfl, ?_, ?_⟩
  · exact List.Perm.swap ("b", Json.num 2) ("a", Json.num 1) []
  · simp [cexDesiredFields, cexDeployedFields]
  · decide
  · decide

theorem isPrefixOf_self_append (p r : List Char) : p.isPrefixOf (p ++ r) = true := by
  rw [List.isPrefixOf_iff_prefix]
  exact List.prefix_append p r

theorem containsSub_mid (p x y : List Char) : containsSub p (x ++ (p ++ y)) = true := by
  induction x with
  | nil =>
      simp only [List.nil_append]
      cases hp : p ++ y with
      | nil =>
          have hpn : p = [] := (List.append_eq_nil.mp hp).1
          subst hpn
          rfl
      | cons c rest =>
          rw [show containsSub p (c :: rest) =
            (p.isPrefixOf (c :: rest) || containsSub p rest) from rfl]
          rw [← hp, isPrefixOf_self_append]
          rfl
  | cons c x ih =>
      simp only [List.cons_append]
      rw [show containsSub p (c :: (x ++ (p ++ y))) =
        (p.isPrefixOf (c :: (x ++ (p ++ y))) || containsSub p (x ++ (p ++ y))) from rfl]
      rw [ih, Bool.or_true]

/-- A string built around `p` contains `p` as a substring. -/
theorem strIncludes_mid (a p b : String) : strIncludes (a ++ p ++ b) p = true := by
  unfold strIncludes
  have h : (a ++ p ++ b).toList = a.toList ++ (p.toList ++ b.toList) := by
    simp [String.toList]
  rw [h]
  exact containsSub_mid p.toList a.toList b.toList

/-- The failed-deletion message reports the observed status verbatim (as
a substring). -/
theorem failedDeletingMsg_includes_status (dn status : String) :
    strIncludes (failedDeletingMsg dn status) status = true := by
  have h : failedDeletingMsg dn status =
      ("Failed deleting stack " ++ dn ++
        " that had previously failed creation (current state: ") ++ status ++ ")" := by
    unfold failedDeletingMsg
    simp [String.append_assoc]
  rw [h]
  exact strIncludes_mid _ _ _

/-- C2's failing input for `deployStack`: the wait for the stack's
terminal state throws after the monitor was started. -/
def monitorLeakEnv : Env :=
  { baseEnv with waitAfterExecute := Except.error ⟨none, "Rate exceeded"⟩ }

/-- C2's failing options: monitor enabled (`quiet` unset), skip guard
bypassed by `force`. -/
def monitorLeakOpts : DeployStackOptions :=
  { baseOpts with quiet := false, force := true }

/-- C2's failing input for `destroyStack`: the wait for deletion throws
after the monitor was started. -/
def destroyLeakEnv : Env :=
  { baseEnv with destroyWaitResult := Except.error ⟨none, "Rate exceeded"⟩ }

/-- C2's destroy options: monitor enabled. -/
def destroyLeakOpts : DestroyStackOptions := {
  stackName := "stack1"
  displayName := "stack1"
  hasEnvironment := true
  roleArn := none
  deployName := none
  quiet := false }

/-- C2 (refuting the claim as stated; the code has no try/finally around
the terminal-state wait): at these inputs both `deployStack` and
`destroyStack` start the monitor, the wait for the stack's terminal
state throws, and the operation unwinds with the error while
`monitor.stop` is never called — the monitor outlives its parent
operation. -/
theorem deployStack_monitor_leak_on_wait_error :
    ((deployStack monitorLeakEnv monitorLeakOpts).res =
      Except.error ⟨none, "Rate exceeded"⟩ ∧
     Event.monitorStart ∈ (deployStack monitorLeakEnv monitorLeakOpts).trace ∧
     (deployStack monitorLeakEnv monitorLeakOpts).trace.count Event.monitorStop = 0) ∧
    ((destroyStack destroyLeakEnv destroyLeakOpts).res =
      Except.error ⟨none, "Rate exceeded"⟩ ∧
     Event.monitorStart ∈ (destroyStack destroyLeakEnv destroyLeakOpts).trace ∧
     (destroyStack destroyLeakEnv destroyLeakOpts).trace.count Event.monitorStop = 0) := by
  refine ⟨⟨rfl, ?_, ?_⟩, ⟨rfl, ?_, ?_⟩⟩ <;> decide

theorem deployStackInner_body_err (env : Env) (opts : DeployStackOptions) (dn : String)
    (e : ApiError)
    (hb : (makeBodyParameter env opts.template opts.toolkitInfo).res = Except.error e) :
    deployStackInner env opts dn =
      ⟨Except.error e,
        [Event.prepareAssets] ++ (makeBodyParameter env opts.template opts.toolkitInfo).trace⟩ := by
  unfold deployStackInner
  rw [DeployM.bind_ok (emit_res Event.prepareAssets)]
  rw [DeployM.bind_err hb]
  simp [emit_trace]

theorem deployStackInner_recovery_fail (env : Env) (opts : DeployStackOptions) (dn : String)
    (bp : TemplateBodyParameter) (ds : StackDescription)
    (hb : (makeBodyParameter env opts.template opts.toolkitInfo).res = Except.ok bp)
    (hfail : env.stackFailedCreating = true)
    (hwd : env.waitAfterDelete = Except.ok (some ds))
    (hbad : ¬ ds.StackStatus = "DELETE_COMPLETE") :
    deployStackInner env opts dn =
      ⟨Except.error ⟨none, failedDeletingMsg dn ds.StackStatus⟩,
        [Event.prepareAssets] ++ (makeBodyParameter env opts.template opts.toolkitInfo).trace ++
          [Event.stackFailedCreatingCheck, Event.deleteStack, Event.waitForStack]⟩ := by
  unfold deployStackInner
  rw [DeployM.bind_ok (emit_res Event.prepareAssets)]
  rw [DeployM.bind_ok hb]
  rw [DeployM.bind_err (recover_res_fail_bad env dn ds hfail hwd hbad)]
  rw [recover_trace_fail env dn hfail]
  simp [emit_trace, List.append_assoc]

theorem deployStackInner_recovery_decomp (env : Env) (opts : DeployStackOptions) (dn : String)
    (bp : TemplateBodyParameter)
    (hb : (makeBodyParameter env opts.template opts.toolkitInfo).res = Except.ok bp)
    (hfail : env.stackFailedCreating = true) :
    ∃ t2, (deployStackInner env opts dn).trace =
      ([Event.prepareAssets] ++ (makeBodyParameter env opts.template opts.toolkitInfo).trace ++
        [Event.stackFailedCreatingCheck]) ++ Event.deleteStack :: t2 := by
  unfold deployStackInner
  rw [DeployM.bind_ok (emit_res Event.prepareAssets)]
  rw [DeployM.bind_ok hb]
  rcases hr : (recoverFailedCreation env dn).res with er | u
  · rw [DeployM.bind_err hr]
    refine ⟨[Event.waitForStack], ?_⟩
    rw [recover_trace_fail env dn hfail]
    simp [emit_trace, List.append_assoc]
  · rw [DeployM.bind_ok hr]
    refine ⟨Event.waitForStack :: (changeSetStage env opts dn).trace, ?_⟩
    rw [recover_trace_fail env dn hfail]
    simp [emit_trace, List.append_assoc]

/-- C3: in every deploy invocation that observes the stack in a
failed-creation terminal state (the `stackFailedCreating` check ran and
reported true), a delete is issued and waited on before any changeset
creation; and when the post-delete observation is a present stack whose
status is not `DELETE_COMPLETE`, the invocation fails with an error
reporting that status verbatim, and no changeset creation is
attempted. -/
theorem deployStack_failedCreation_recovery (env : Env) (opts : DeployStackOptions)
    (henv : opts.hasEnvironment = true)
    (hfail : env.stackFailedCreating = true)
    (hobs : Event.stackFailedCreatingCheck ∈ (deployStack env opts).trace) :
    (∃ t1 t2, (deployStack env opts).trace = t1 ++ Event.deleteStack :: t2 ∧
      Event.createChangeSet ∉ t1) ∧
    (∀ ds : StackDescription, env.waitAfterDelete = Except.ok (some ds) →
      ¬ ds.StackStatus = "DELETE_COMPLETE" →
      Event.createChangeSet ∉ (deployStack env opts).trace ∧
      (deployStack env opts).res = Except.error
        ⟨none, failedDeletingMsg (deployNameFor opts.deployName opts.stackName) ds.StackStatus⟩ ∧
      strIncludes
        (failedDeletingMsg (deployNameFor opts.deployName opts.stackName) ds.StackStatus)
        ds.StackStatus = true) := by
  rcases deployStack_dispatch env opts henv with hleft | ⟨pre, hpre, heqn⟩
  · exact absurd (hleft _ hobs) (by decide)
  · have hpre2 : Event.stackFailedCreatingCheck ∉ pre := fun hin =>
      absurd (hpre _ hin) (by decide)
    rcases hb : (makeBodyParameter env opts.template opts.toolkitInfo).res with e | bp
    · exfalso
      rw [heqn] at hobs
      dsimp only at hobs
      rw [deployStackInner_body_err env opts
        (deployNameFor opts.deployName opts.stackName) e hb] at hobs
      dsimp only at hobs
      simp at hobs
      rcases hobs with hin | hin
      · exact hpre2 hin
      · exact absurd (makeBodyParameter_trace env opts.template opts.toolkitInfo _ hin)
          (by decide)
    · constructor
      · rcases deployStackInner_recovery_decomp env opts
          (deployNameFor opts.deployName opts.stackName) bp hb hfail with ⟨t2, hdec⟩
        refine ⟨pre ++ ([Event.prepareAssets] ++
          (makeBodyParameter env opts.template opts.toolkitInfo).trace ++
          [Event.stackFailedCreatingCheck]), t2, ?_, ?_⟩
        · rw [heqn]
          dsimp only
          rw [hdec]
          exact (List.append_assoc _ _ _).symm
        · intro hin
          simp at hin
          rcases hin with hin | hin
          · exact absurd (hpre _ hin) (by decide)
          · exact absurd (makeBodyParameter_trace env opts.template opts.toolkitInfo _ hin)
              (by decide)
      · intro ds hwd hbad
        have hinner := deployStackInner_recovery_fail env opts
          (deployNameFor opts.deployName opts.stackName) bp ds hb hfail hwd hbad
        refine ⟨?_, ?_, failedDeletingMsg_includes_status _ _⟩
        · intro hin
          rw [heqn] at hin
          dsimp only at hin
          rw [hinner] at hin
          dsimp only at hin
          simp at hin
          rcases hin with hin | hin
          · exact absurd (hpre _ hin) (by decide)
          · exact absurd (makeBodyParameter_trace env opts.template opts.toolkitInfo _ hin)
              (by decide)
        · rw [heqn]
          dsimp only
          rw [hinner]

/-- C3's witness environment: a stack that previously failed creation
whose post-delete observation is `DELETE_FAILED`. -/
def recoveryEnv : Env :=
  { baseEnv with
      stackFailedCreating := true
      waitAfterDelete := Except.ok (some ⟨"arn:stack1", "DELETE_FAILED", none⟩) }

/-- Concrete options with the skip guard bypassed, so the pipeline
runs. -/
def forceOpts : DeployStackOptions := { baseOpts with force := true }

/-- Witness for C3's theorem at a concrete failing post-delete status. -/
theorem deployStack_failedCreation_recovery_witness :
    (∃ t1 t2, (deployStack recoveryEnv forceOpts).trace = t1 ++ Event.deleteStack :: t2 ∧
      Event.createChangeSet ∉ t1) ∧
    Event.createChangeSet ∉ (deployStack recoveryEnv forceOpts).trace ∧
    (deployStack recoveryEnv forceOpts).res = Except.error
      ⟨none, failedDeletingMsg "stack1" "DELETE_FAILED"⟩ ∧
    strIncludes (failedDeletingMsg "stack1" "DELETE_FAILED") "DELETE_FAILED" = true :=
  have h := deployStack_failedCreation_recovery recoveryEnv forceOpts rfl rfl (by decide)
  ⟨h.1, h.2 ⟨"arn:stack1", "DELETE_FAILED", none⟩ rfl (by decide)⟩

/-- C4: with no toolkit storage handle, `makeBodyParameter` fails with
the actionable too-large error — performing no remote call — exactly
when the serialized template exceeds `LARGE_TEMPLATE_SIZE_KB * 1024`;
at or below the threshold it returns the serialized template inline;
with a storage handle it uploads and returns the external URL regardless
of size. -/
theorem makeBodyParameter_size_gate (env : Env) (template : Json) :
    ((env.toYAML template).length > LARGE_TEMPLATE_SIZE_KB * 1024 →
      makeBodyParameter env template none = ⟨Except.error ⟨none, tooLargeMsg⟩, []⟩) ∧
    ((env.toYAML template).length ≤ LARGE_TEMPLATE_SIZE_KB * 1024 →
      makeBodyParameter env template none =
        ⟨Except.ok ⟨some (env.toYAML template), none⟩, []⟩) ∧
    (∀ info : ToolkitInfo,
      makeBodyParameter env template (some info) =
        ⟨Except.ok ⟨none, some (info.bucketUrl ++ "/" ++ env.uploadKey)⟩, [Event.upload]⟩) := by
  refine ⟨?_, ?_, ?_⟩
  · intro h
    unfold makeBodyParameter
    dsimp only
    rw [if_pos h]
    rfl
  · intro h
    unfold makeBodyParameter
    dsimp only
    rw [if_neg (by omega)]
    rfl
  · intro info
    rfl

/-- C4's oversized-template environment: the serialized form is 51201
characters, one above the 50 KiB threshold. -/
def bigYamlEnv : Env :=
  { baseEnv with toYAML := fun _ => String.mk (List.replicate 51201 'x') }

/-- Witness for C4's theorem: all three cases at concrete inputs. -/
theorem makeBodyParameter_size_gate_witness :
    makeBodyParameter bigYamlEnv Json.null none = ⟨Except.error ⟨none, tooLargeMsg⟩, []⟩ ∧
    makeBodyParameter baseEnv Json.null none = ⟨Except.ok ⟨some "yaml", none⟩, []⟩ ∧
    makeBodyParameter baseEnv Json.null (some ⟨"https://bucket"⟩) =
      ⟨Except.ok ⟨none, some "https://bucket/key"⟩, [Event.upload]⟩ := by
  refine ⟨(makeBodyParameter_size_gate bigYamlEnv Json.null).1 ?_,
    (makeBodyParameter_size_gate baseEnv Json.null).2.1 ?_,
    (makeBodyParameter_size_gate baseEnv Json.null).2.2 ⟨"https://bucket"⟩⟩
  · show (List.replicate 51201 'x').length > 50 * 1024
    rw [List.length_replicate]
    decide
  · decide

/-- C5: every `TemplateBodyParameter` that `makeBodyParameter` returns
on a non-throwing execution sets exactly one of the inline body and the
external URL — never both, never neither. -/
theorem makeBodyParameter_exclusive (env : Env) (template : Json)
    (info : Option ToolkitInfo) (bp : TemplateBodyParameter)
    (h : (makeBodyParameter env template info).res = Except.ok bp) :
    bp.TemplateBody.isSome ≠ bp.TemplateURL.isSome := by
  unfold makeBodyParameter at h
  rcases info with _ | i
  · dsimp only at h
    split at h
    · simp [throwErr] at h
    · simp only [DeployM.pure_def, Except.ok.injEq] at h
      subst h
      simp
  · simp only [DeployM.bind_def, DeployM.bind', emit, DeployM.pure_def,
      Except.ok.injEq] at h
    subst h
    simp

/-- Witness for C5's theorem at a concrete inline-body return. -/
theorem makeBodyParameter_exclusive_witness :
    (⟨some "yaml", none⟩ : TemplateBodyParameter).TemplateBody.isSome ≠
      (⟨some "yaml", none⟩ : TemplateBodyParameter).TemplateURL.isSome :=
  makeBodyParameter_exclusive baseEnv Json.null none ⟨some "yaml", none⟩ rfl

/-- C6: in every deploy invocation whose created changeset stabilizes
with zero effective changes, the changeset is deleted, the result is a
no-op carrying the stack's current outputs, and the changeset is never
executed. -/
theorem deployStack_emptyDiff_noOp (env : Env) (opts : DeployStackOptions)
    (desc : ChangeSetDescription)
    (henv : opts.hasEnvironment = true)
    (hw : env.waitForChangeSetResult = Except.ok desc)
    (hnc : changeSetHasNoChanges desc = true)
    (hreach : Event.createChangeSet ∈ (deployStack env opts).trace) :
    (deployStack env opts).res = Except.ok
      ⟨true, stackOutputsOf env.describeStackResult, env.createChangeSetResult.StackId⟩ ∧
    Event.deleteChangeSet ∈ (deployStack env opts).trace ∧
    Event.executeChangeSet ∉ (deployStack env opts).trace := by
  rcases deployStack_dispatch env opts henv with hleft | ⟨pre, hpre, heqn⟩
  · exact absurd (hleft _ hreach) (by decide)
  · rcases deployStackInner_split env opts (deployNameFor opts.deployName opts.stackName) with
      ⟨htr, _⟩ | ⟨pre2, hpre2, hinner⟩
    · exfalso
      rw [heqn] at hreach
      dsimp only at hreach
      rcases List.mem_append.mp hreach with hin | hin
      · exact absurd (hpre _ hin) (by decide)
      · exact absurd (htr _ hin) (by decide)
    · have hstage := changeSetStage_noChanges env opts
        (deployNameFor opts.deployName opts.stackName) desc hw hnc
      have hres : (deployStack env opts).res =
          (changeSetStage env opts (deployNameFor opts.deployName opts.stackName)).res := by
        rw [heqn, hinner]
      have htrace : (deployStack env opts).trace = pre ++ (pre2 ++
          (changeSetStage env opts (deployNameFor opts.deployName opts.stackName)).trace) := by
        rw [heqn, hinner]
      refine ⟨?_, ?_, ?_⟩
      · rw [hres, hstage]
      · rw [htrace, hstage]
        simp
      · intro hin
        rw [htrace, hstage] at hin
        simp at hin
        rcases hin with hin | hin
        · exact absurd (hpre _ hin) (by decide)
        · exact absurd (hpre2 _ hin) (by decide)

/-- C6's witness environment: the changeset stabilizes with zero
changes. -/
def emptyDiffEnv : Env :=
  { baseEnv with waitForChangeSetResult := Except.ok ⟨some 0⟩ }

/-- Witness for C6's theorem at a concrete empty changeset. -/
theorem deployStack_emptyDiff_noOp_witness :
    (deployStack emptyDiffEnv forceOpts).res = Except.ok ⟨true, [("Out", "V")], "arn:cs"⟩ ∧
    Event.deleteChangeSet ∈ (deployStack emptyDiffEnv forceOpts).trace ∧
    Event.executeChangeSet ∉ (deployStack emptyDiffEnv forceOpts).trace :=
  deployStack_emptyDiff_noOp emptyDiffEnv forceOpts ⟨some 0⟩ rfl rfl rfl (by decide)

/-- C9: a deploy invocation with `execute = false` whose changeset
stabilizes with changes leaves the changeset in place (neither executed
nor deleted, no monitor), yet returns `noOp = false` with the stack's
current (pre-change) outputs. -/
theorem deployStack_noExecute_review (env : Env) (opts : DeployStackOptions)
    (desc : ChangeSetDescription)
    (henv : opts.hasEnvironment = true)
    (hw : env.waitForChangeSetResult = Except.ok desc)
    (hc : changeSetHasNoChanges desc = false)
    (hexec : opts.execute = some false)
    (hreach : Event.createChangeSet ∈ (deployStack env opts).trace) :
    (deployStack env opts).res = Except.ok
      ⟨false, stackOutputsOf env.describeStackResult, env.createChangeSetResult.StackId⟩ ∧
    Event.executeChangeSet ∉ (deployStack env opts).trace ∧
    Event.deleteChangeSet ∉ (deployStack env opts).trace ∧
    Event.monitorStart ∉ (deployStack env opts).trace := by
  rcases deployStack_dispatch env opts henv with hleft | ⟨pre, hpre, heqn⟩
  · exact absurd (hleft _ hreach) (by decide)
  · rcases deployStackInner_split env opts (deployNameFor opts.deployName opts.stackName) with
      ⟨htr, _⟩ | ⟨pre2, hpre2, hinner⟩
    · exfalso
      rw [heqn] at hreach
      dsimp only at hreach
      rcases List.mem_append.mp hreach with hin | hin
      · exact absurd (hpre _ hin) (by decide)
      · exact absurd (htr _ hin) (by decide)
    · have hstage := changeSetStage_noExecute env opts
        (deployNameFor opts.deployName opts.stackName) desc hw hc hexec
      have hres : (deployStack env opts).res =
          (changeSetStage env opts (deployNameFor opts.deployName opts.stackName)).res := by
        rw [heqn, hinner]
      have htrace : (deployStack env opts).trace = pre ++ (pre2 ++
          (changeSetStage env opts (deployNameFor opts.deployName opts.stackName)).trace) := by
        rw [heqn, hinner]
      refine ⟨?_, ?_, ?_, ?_⟩ <;>
        [skip;
         (intro hin
          rw [htrace, hstage] at hin
          simp at hin
          rcases hin with hin | hin
          · exact absurd (hpre _ hin) (by decide)
          · exact absurd (hpre2 _ hin) (by decide));
         (intro hin
          rw [htrace, hstage] at hin
          simp at hin
          rcases hin with hin | hin
          · exact absurd (hpre _ hin) (by decide)
          · exact absurd (hpre2 _ hin) (by decide));
         (intro hin
          rw [htrace, hstage] at hin
          simp at hin
          rcases hin with hin | hin
          · exact absurd (hpre _ hin) (by decide)
          · exact absurd (hpre2 _ hin) (by decide))]
      rw [hres, hstage]

/-- C9's witness options: `--no-execute` with the skip guard bypassed. -/
def noExecOpts : DeployStackOptions :=
  { baseOpts with force := true, execute := some false }

/-- Witness for C9's theorem at a concrete changeset with one change. -/
theorem deployStack_noExecute_review_witness :
    (deployStack baseEnv noExecOpts).res = Except.ok ⟨false, [("Out", "V")], "arn:cs"⟩ ∧
    Event.executeChangeSet ∉ (deployStack baseEnv noExecOpts).trace ∧
    Event.deleteChangeSet ∉ (deployStack baseEnv noExecOpts).trace ∧
    Event.monitorStart ∉ (deployStack baseEnv noExecOpts).trace :=
  deployStack_noExecute_review baseEnv noExecOpts ⟨some 1⟩ rfl rfl rfl rfl (by decide)

/-- C8: destroying a stack that does not exist returns successfully
without issuing a delete request and without starting the monitor. -/
theorem destroyStack_nonexistent_noOp (env : Env) (opts : DestroyStackOptions)
    (henv : opts.hasEnvironment = true)
    (hex : env.stackExists = false) :
    destroyStack env opts = ⟨Except.ok (), [Event.stackExistsCheck]⟩ ∧
    Event.deleteStack ∉ (destroyStack env opts).trace ∧
    Event.monitorStart ∉ (destroyStack env opts).trace := by
  have h : destroyStack env opts = ⟨Except.ok (), [Event.stackExistsCheck]⟩ := by
    unfold destroyStack
    rw [henv, hex]
    rw [if_neg (by simp)]
    rfl
  refine ⟨h, ?_, ?_⟩ <;> rw [h] <;> decide

/-- C8's witness environment: no stack exists under the name. -/
def absentEnv : Env := { baseEnv with stackExists := false }

/-- C8's witness destroy options. -/
def baseDestroyOpts : DestroyStackOptions := {
  stackName := "stack1"
  displayName := "stack1"
  hasEnvironment := true
  roleArn := none
  deployName := none
  quiet := false }

/-- Witness for C8's theorem. -/
theorem destroyStack_nonexistent_noOp_witness :
    destroyStack absentEnv baseDestroyOpts = ⟨Except.ok (), [Event.stackExistsCheck]⟩ ∧
    Event.deleteStack ∉ (destroyStack absentEnv baseDestroyOpts).trace ∧
    Event.monitorStart ∉ (destroyStack absentEnv baseDestroyOpts).trace :=
  destroyStack_nonexistent_noOp absentEnv baseDestroyOpts rfl rfl

theorem getStackId_notFound (env : Env) (n : String) (e : ApiError)
    (h1 : env.describeStacksResult = Except.error e)
    (h2 : strIncludes e.message "does not exist" = true) :
    getStackId env n = ⟨Except.ok none, [Event.describeStacks]⟩ := by
  unfold getStackId
  rw [h1]
  simp [DeployM.bind_def, DeployM.bind', emit, DeployM.pure_def, h2]

theorem readCurrentTemplate_notFound (env : Env) (n : String)
    (h : env.getTemplateResult = Except.error ⟨some "ValidationError", notFoundMsg n⟩) :
    readCurrentTemplate env n = ⟨Except.ok (Json.obj []), [Event.getTemplate]⟩ := by
  unfold readCurrentTemplate
  rw [h]
  simp [DeployM.bind_def, DeployM.bind', emit, DeployM.pure_def, throwErr]

theorem getDeployedTemplate_none (env : Env) (n : String)
    (h : getStackId env n = ⟨Except.ok none, [Event.describeStacks]⟩) :
    getDeployedTemplate env n = ⟨Except.ok none, [Event.describeStacks]⟩ := by
  unfold getDeployedTemplate
  rw [DeployM.bind_ok (show (getStackId env n).res = Except.ok none by rw [h])]
  rw [h]
  rfl

theorem deployStack_bypass (env : Env) (opts : DeployStackOptions)
    (henv : opts.hasEnvironment = true) (hforce : opts.force = false)
    (hnone : (getDeployedTemplate env (deployNameFor opts.deployName opts.stackName)).res =
      Except.ok none) :
    deployStack env opts =
      ⟨(deployStackInner env opts (deployNameFor opts.deployName opts.stackName)).res,
        (getDeployedTemplate env (deployNameFor opts.deployName opts.stackName)).trace ++
          (deployStackInner env opts (deployNameFor opts.deployName opts.stackName)).trace⟩ := by
  unfold deployStack
  rw [henv, hforce]
  simp only [Bool.true_eq_false, if_false, ite_false, if_true, ite_true]
  rw [DeployM.bind_ok hnone]

/-- C7: a "does not exist" condition surfaced as an error by the remote
API while fetching the stack id or the deployed template is normalized
at the boundary into an absence value (none / the empty document), the
pipeline proceeds as if no stack were deployed, and the error is never
propagated to the caller. -/
theorem deployStack_notFound_normalized :
    (∀ (env : Env) (n : String) (e : ApiError),
      env.describeStacksResult = Except.error e →
      strIncludes e.message "does not exist" = true →
      getStackId env n = ⟨Except.ok none, [Event.describeStacks]⟩) ∧
    (∀ (env : Env) (n : String),
      env.getTemplateResult = Except.error ⟨some "ValidationError", notFoundMsg n⟩ →
      readCurrentTemplate env n = ⟨Except.ok (Json.obj []), [Event.getTemplate]⟩) ∧
    (∀ (env : Env) (n sid : String),
      (getStackId env n).res = Except.ok (some sid) →
      env.getTemplateResult = Except.error ⟨some "ValidationError", notFoundMsg n⟩ →
      (getDeployedTemplate env n).res = Except.ok (some ⟨sid, Json.obj []⟩)) ∧
    (∀ (env : Env) (opts : DeployStackOptions) (e : ApiError),
      opts.hasEnvironment = true → opts.force = false →
      env.describeStacksResult = Except.error e →
      strIncludes e.message "does not exist" = true →
      deployStack env opts =
        ⟨(deployStackInner env opts (deployNameFor opts.deployName opts.stackName)).res,
          [Event.describeStacks] ++
            (deployStackInner env opts (deployNameFor opts.deployName opts.stackName)).trace⟩) := by
  refine ⟨getStackId_notFound, readCurrentTemplate_notFound, ?_, ?_⟩
  · intro env n sid hsid h2
    unfold getDeployedTemplate
    rw [DeployM.bind_ok hsid]
    dsimp only
    rw [DeployM.bind_ok (show (readCurrentTemplate env n).res = Except.ok (Json.obj []) by
      rw [readCurrentTemplate_notFound env n h2])]
    rfl
  · intro env opts e henv hforce h1 h2
    have hg := getStackId_notFound env (deployNameFor opts.deployName opts.stackName) e h1 h2
    have hgd := getDeployedTemplate_none env (deployNameFor opts.deployName opts.stackName) hg
    rw [deployStack_bypass env opts henv hforce (by rw [hgd])]
    rw [hgd]

/-- C7's witness environment: `describeStacks` throws the not-found
error. -/
def notFoundEnv : Env :=
  { baseEnv with
      describeStacksResult := Except.error ⟨some "ValidationError", notFoundMsg "stack1"⟩ }

/-- C7's witness environment: `getTemplate` throws the not-found
error. -/
def notFoundTemplateEnv : Env :=
  { baseEnv with
      getTemplateResult := Except.error ⟨some "ValidationError", notFoundMsg "stack1"⟩ }

/-- Witness for C7's theorem at concrete not-found errors. -/
theorem deployStack_notFound_normalized_witness :
    getStackId notFoundEnv "stack1" = ⟨Except.ok none, [Event.describeStacks]⟩ ∧
    readCurrentTemplate notFoundTemplateEnv "stack1" =
      ⟨Except.ok (Json.obj []), [Event.getTemplate]⟩ ∧
    (getDeployedTemplate notFoundTemplateEnv "stack1").res =
      Except.ok (some ⟨"arn:stack1", Json.obj []⟩) ∧
    deployStack notFoundEnv baseOpts =
      ⟨(deployStackInner notFoundEnv baseOpts "stack1").res,
        [Event.describeStacks] ++ (deployStackInner notFoundEnv baseOpts "stack1").trace⟩ :=
  ⟨deployStack_notFound_normalized.1 notFoundEnv "stack1"
      ⟨some "ValidationError", notFoundMsg "stack1"⟩ rfl (by decide),
   deployStack_notFound_normalized.2.1 notFoundTemplateEnv "stack1" rfl,
   deployStack_notFound_normalized.2.2.1 notFoundTemplateEnv "stack1" "arn:stack1" rfl rfl,
   deployStack_notFound_normalized.2.2.2 notFoundEnv baseOpts
      ⟨some "ValidationError", notFoundMsg "stack1"⟩ rfl rfl rfl (by decide)⟩

/-- C10: `getStackId` yields an id only from a singleton `Stacks`
response: a missing list, an empty list, or more than one stack all
yield `none`, in which case the skip check is bypassed and `deployStack`
proceeds exactly as when no stack is deployed. -/
theorem getStackId_requires_singleton (env : Env) (n : String)
    (resp : DescribeStacksResponse)
    (h : env.describeStacksResult = Except.ok resp) :
    (resp.Stacks = none → (getStackId env n).res = Except.ok none) ∧
    (∀ l, resp.Stacks = some l → l.length ≠ 1 → (getStackId env n).res = Except.ok none) ∧
    (∀ s, resp.Stacks = some [s] → (getStackId env n).res = Except.ok (some s.StackId)) ∧
    (∀ opts : DeployStackOptions, opts.hasEnvironment = true → opts.force = false →
      (getStackId env (deployNameFor opts.deployName opts.stackName)).res = Except.ok none →
      (getDeployedTemplate env (deployNameFor opts.deployName opts.stackName)).res =
        Except.ok none ∧
      deployStack env opts =
        ⟨(deployStackInner env opts (deployNameFor opts.deployName opts.stackName)).res,
          [Event.describeStacks] ++
            (deployStackInner env opts (deployNameFor opts.deployName opts.stackName)).trace⟩) := by
  refine ⟨?_, ?_, ?_, ?_⟩
  · intro hs
    unfold getStackId
    rw [h]
    dsimp only
    rw [hs]
    rfl
  · intro l hs hlen
    unfold getStackId
    rw [h]
    dsimp only
    rw [hs]
    simp [DeployM.bind_def, DeployM.bind', emit, DeployM.pure_def, hlen]
  · intro s hs
    unfold getStackId
    rw [h]
    dsimp only
    rw [hs]
    simp [DeployM.bind_def, DeployM.bind', emit, DeployM.pure_def]
  · intro opts henv hforce hres
    have hfull : getStackId env (deployNameFor opts.deployName opts.stackName) =
        ⟨Except.ok none, [Event.describeStacks]⟩ := by
      rw [← hres, ← getStackId_trace env (deployNameFor opts.deployName opts.stackName)]
    have hgd := getDeployedTemplate_none env (deployNameFor opts.deployName opts.stackName) hfull
    refine ⟨by rw [hgd], ?_⟩
    rw [deployStack_bypass env opts henv hforce (by rw [hgd])]
    rw [hgd]

/-- C10's witness environments: responses with no list, an empty list,
two stacks, and a singleton. -/
def respNoneEnv : Env := { baseEnv with describeStacksResult := Except.ok ⟨none⟩ }

def respEmptyEnv : Env := { baseEnv with describeStacksResult := Except.ok ⟨some []⟩ }

def respTwoEnv : Env :=
  { baseEnv with describeStacksResult := Except.ok ⟨some [baseDesc, baseDesc]⟩ }

/-- Witness for C10's theorem at the four response shapes. -/
theorem getStackId_requires_singleton_witness :
    (getStackId respNoneEnv "stack1").res = Except.ok none ∧
    (getStackId respEmptyEnv "stack1").res = Except.ok none ∧
    (getStackId respTwoEnv "stack1").res = Except.ok none ∧
    (getStackId baseEnv "stack1").res = Except.ok (some "arn:stack1") ∧
    ((getDeployedTemplate respEmptyEnv "stack1").res = Except.ok none ∧
      deployStack respEmptyEnv baseOpts =
        ⟨(deployStackInner respEmptyEnv baseOpts "stack1").res,
          [Event.describeStacks] ++
            (deployStackInner respEmptyEnv baseOpts "stack1").trace⟩) :=
  ⟨(getStackId_requires_singleton respNoneEnv "stack1" ⟨none⟩ rfl).1 rfl,
   (getStackId_requires_singleton respEmptyEnv "stack1" ⟨some []⟩ rfl).2.1 [] rfl (by decide),
   (getStackId_requires_singleton respTwoEnv "stack1" ⟨some [baseDesc, baseDesc]⟩ rfl).2.1
      [baseDesc, baseDesc] rfl (by decide),
   (getStackId_requires_singleton baseEnv "stack1" ⟨some [baseDesc]⟩ rfl).2.2.1 baseDesc rfl,
   (getStackId_requires_singleton respEmptyEnv "stack1" ⟨some []⟩ rfl).2.2.2 baseOpts
      rfl rfl rfl⟩
